import Mathlib

/-!
Verification development for the arc.js wrapper layer.

The embedding below follows the TypeScript sources:
* `TokenCapGCWrapper` (setParameters / getParameters) from the wrapper
  source file;
* the transaction-result and log types from `index.d.ts`.

JavaScript conventions are made explicit:
* a `BigNumber` is an `Option Int` (`none` models NaN, produced when a
  string fails to parse as a decimal number);
* an absent / null / undefined field is `none`; JS falsiness of a string
  value means the empty string is also treated as missing;
* a thrown `Error` is the `.error` branch of `Except String`, carrying the
  thrown message; the `.ok` branch of `setParameters` carries the ordered
  argument tuple handed to the underlying submission call, so an `.error`
  result means no transaction was ever submitted.
-/

/-- A numeric input as accepted by `TokenCapGcParams.cap`:
either a decimal string or a big-integer object. -/
inductive CapInput where
  | str (s : String)
  | big (v : Int)
deriving DecidableEq, Repr

/-- Value of a decimal digit character, `none` for a non-digit. -/
def digitVal (c : Char) : Option Nat :=
  if c.isDigit then some (c.toNat - 48) else none

/-- Parse a non-empty run of decimal digits, most significant first. -/
def parseDigitsAux : List Char → Nat → Option Nat
  | [], acc => some acc
  | c :: cs, acc =>
      match digitVal c with
      | some d => parseDigitsAux cs (acc * 10 + d)
      | none => none

/-- Parse a non-empty all-digit string to a natural number. -/
def parseDigits : List Char → Option Nat
  | [] => none
  | l => parseDigitsAux l 0

/-- Parse an optionally-signed decimal integer string. -/
def parseDecInt (s : String) : Option Int :=
  match s.toList with
  | '-' :: rest => (parseDigits rest).map (fun n => -(n : Int))
  | l => (parseDigits l).map (fun n => (n : Int))

/-- Embeds `new BigNumber(x)` applied to a `BigNumber | string` input:
a string is parsed as a decimal number (`none` models NaN on parse
failure), a big-integer object is taken as-is. -/
def newBigNumber : CapInput → Option Int
  | .str s => parseDecInt s
  | .big v => some v

/-- Embeds `BigNumber.lt` against an integer bound: every comparison
with NaN is false. -/
def bnLt (a : Option Int) (b : Int) : Bool :=
  match a with
  | none => false
  | some v => decide (v < b)

/-- One encoded parameter value: an address or a big number. -/
inductive ParamValue where
  | addr (a : String)
  | num (v : Option Int)
deriving DecidableEq, Repr

/-- The `TokenCapGcParams` input interface: `cap` is a big number or a
decimal string, `token` is an address that may be absent (`none` models
a missing / null / undefined field). -/
structure TokenCapGcParams where
  cap : CapInput
  token : Option String
deriving DecidableEq, Repr

/-- JS truthiness of the `token` field: absent, null, undefined and the
empty string are all falsy; any non-empty string is truthy. -/
def truthyToken : Option String → Bool
  | none => false
  | some s => !(s == "")

/-- One decoded log entry of a transaction, as in `TransactionLogTruffle`:
the event name and the named argument values (argument values kept as
strings, the decoded textual form). -/
structure TransactionLogTruffle where
  event : String
  args : List (String × String)
deriving DecidableEq, Repr

/-- A completed transaction receipt, as in `TransactionReceiptTruffle`:
the transaction hash and the ordered list of decoded log entries. -/
structure TransactionReceiptTruffle where
  transactionHash : String
  logs : List TransactionLogTruffle
deriving DecidableEq, Repr

/-- Modelled from the spec: the implementation of `Utils.getValueFromLogs`
is not part of the sources (only its declaration is). Per the spec's Event
Correlator contract: filter the logs to entries whose event name equals
`eventName`; with `index` omitted select the last matching entry; with
`index` given select the entry at that position among all logs; fail with
`EventNotFoundError` naming the event when no entry can be selected;
return the named argument's value from the matched entry (`none` models
an absent argument, JS undefined). -/
def getValueFromLogs (logs : List TransactionLogTruffle)
    (arg : String) (eventName : String) (index : Option Nat) :
    Except String (Option String) :=
  match index with
  | some i =>
      match logs.get? i with
      | some entry => .ok (entry.args.lookup arg)
      | none => .error ("EventNotFoundError: " ++ eventName)
  | none =>
      match (logs.filter (fun l => l.event == eventName)).getLast? with
      | some entry => .ok (entry.args.lookup arg)
      | none => .error ("EventNotFoundError: " ++ eventName)

/-- Modelled from the spec: `ArcTransactionResult.getValueFromTx`
(declaration only in the sources) delegates to `Utils.getValueFromLogs`
over the receipt's logs. -/
def ArcTransactionResult.getValueFromTx (tx : TransactionReceiptTruffle)
    (valueName : String) (eventName : String) (index : Option Nat) :
    Except String (Option String) :=
  getValueFromLogs tx.logs valueName eventName index

/-- The `ArcTransactionProposalResult` envelope: the receipt plus the
proposal identifier extracted from the documented new-proposal event. -/
structure ArcTransactionProposalResult where
  tx : TransactionReceiptTruffle
  proposalId : String
deriving DecidableEq, Repr

/-- Modelled from the spec: the construction of an
`ArcTransactionProposalResult` by a wrapper method (only the interface is
in the sources). Per the spec, the wrapper correlates `_proposalId` from
the documented new-proposal event via the Event Correlator; absence of
the event, or an absent or empty identifier, is an error — never a null
result. -/
def mkArcTransactionProposalResult (tx : TransactionReceiptTruffle)
    (newProposalEventName : String) :
    Except String ArcTransactionProposalResult :=
  match getValueFromLogs tx.logs "_proposalId" newProposalEventName none with
  | .error e => .error e
  | .ok none => .error ("EventNotFoundError: " ++ newProposalEventName)
  | .ok (some v) =>
      if v == "" then .error ("EventNotFoundError: " ++ newProposalEventName)
      else .ok ⟨tx, v⟩

/-- Orchestration phase of an organization, per the spec's state machine
`Unforged → Forged → SchemesSet`. -/
inductive OrgPhase where
  | unforged
  | forged
  | schemesSet
deriving DecidableEq, Repr

/-- Orchestration state of one organization: its phase and the caller
identity that performed `forgeOrg` (none before forging). -/
structure OrgState where
  phase : OrgPhase
  creator : Option String
deriving DecidableEq, Repr

/-- Errors of the multi-step orchestrator, per the spec's taxonomy. -/
inductive OrchError where
  | notForged
  | alreadyConfigured
  | unauthorized
deriving DecidableEq, Repr

namespace DaoCreator

/-- Modelled from the spec: the on-chain effect of `DaoCreator.forgeOrg`
(only the declaration is in the sources). Forging an unforged organization
moves it to `Forged` and records the caller as its creator; an organization
can only be forged once. -/
def forgeOrg (st : OrgState) (caller : String) : Except OrchError OrgState :=
  match st.phase with
  | .unforged => .ok ⟨OrgPhase.forged, some caller⟩
  | _ => .error OrchError.alreadyConfigured

/-- Modelled from the spec: the on-chain effect of `DaoCreator.setSchemes`
(only the declaration is in the sources; its doc there states it can only
be invoked by the agent that created the DAO via forgeOrg and only one
time). Valid only in phase `Forged`, only for the creator caller, and at
most once: a second call fails with `AlreadyConfiguredError`; an error
leaves the state argument untouched. -/
def setSchemes (st : OrgState) (caller : String) : Except OrchError OrgState :=
  match st.phase with
  | .unforged => .error OrchError.notForged
  | .schemesSet => .error OrchError.alreadyConfigured
  | .forged =>
      if st.creator == some caller then .ok ⟨OrgPhase.schemesSet, st.creator⟩
      else .error OrchError.unauthorized

end DaoCreator

/-- A receipt with two "Stake" logs carrying different amounts, used as a
concrete instance for the correlator claims. -/
def twoStakeReceipt : TransactionReceiptTruffle :=
  ⟨"0xtx1",
    [⟨"Stake", [("_amount", "10"), ("_staker", "0xS1")]⟩,
     ⟨"NewProposal", [("_proposalId", "0xAB12")]⟩,
     ⟨"Stake", [("_amount", "25"), ("_staker", "0xS2")]⟩]⟩

/-- A receipt with no "Stake" log. -/
def noStakeReceipt : TransactionReceiptTruffle :=
  ⟨"0xtx2", [⟨"Vote", [("_voter", "0xV")]⟩]⟩

/-- A receipt with a single "NewProposal" log. -/
def newProposalReceipt : TransactionReceiptTruffle :=
  ⟨"0xtx3", [⟨"NewProposal", [("_proposalId", "0xAB12"), ("_proposer", "0xP")]⟩]⟩

/-- A receipt with no logs at all. -/
def emptyReceipt : TransactionReceiptTruffle := ⟨"0xtx4", []⟩

namespace TokenCapGCWrapper

/-- Embeds `TokenCapGCWrapper.setParameters`: requires a truthy `token`,
normalizes `cap` through `new BigNumber`, rejects a negative cap, and
otherwise hands the ordered tuple `(token, cap)` to the underlying
`_setParameters` submission (the `.ok` payload). An `.error` result is a
throw before any network call. -/
def setParameters (params : TokenCapGcParams) : Except String (List ParamValue) :=
  if truthyToken params.token = false then
    .error "token must be set"
  else
    let cap := newBigNumber params.cap
    if bnLt cap 0 then
      .error "cap must be greater than or equal to zero"
    else
      .ok [ParamValue.addr (params.token.getD ""), ParamValue.num cap]

/-- The `GetTokenCapGcParamsResult` shape produced by `getParameters`:
each field is `Option` because indexing past the end of the parameter
array in JS yields undefined. -/
structure GetParamsResult where
  cap : Option ParamValue
  token : Option ParamValue
deriving DecidableEq, Repr

/-- Embeds `TokenCapGCWrapper.getParameters` applied to the parameter
array fetched for a hash: `{ cap: params[1], token: params[0] }`. -/
def getParameters (params : List ParamValue) : GetParamsResult :=
  { cap := params.get? 1, token := params.get? 0 }

end TokenCapGCWrapper

/-- C1: encoding is insensitive to the representation of the cap: a decimal
string parsing to `v` and a big-integer object holding `v` produce the
identical encoded parameter tuple (or the identical failure). -/
theorem tokenCapGC_encode_representation_independent
    (t : Option String) (s : String) (v : Int)
    (h : parseDecInt s = some v) :
    TokenCapGCWrapper.setParameters ⟨CapInput.str s, t⟩ =
      TokenCapGCWrapper.setParameters ⟨CapInput.big v, t⟩ := by
  simp only [TokenCapGCWrapper.setParameters, newBigNumber, h]

/-- Witness for C1 at token "0x1", cap "42" vs 42. -/
theorem tokenCapGC_encode_representation_independent_witness :
    parseDecInt "42" = some 42 ∧
      TokenCapGCWrapper.setParameters ⟨CapInput.str "42", some "0x1"⟩ =
        TokenCapGCWrapper.setParameters ⟨CapInput.big 42, some "0x1"⟩ :=
  ⟨by decide, tokenCapGC_encode_representation_independent (some "0x1") "42" 42 (by decide)⟩

/-- C2: for a truthy token and non-negative cap, encoding through
`setParameters` (fixed order: token at position 0, cap at position 1) and
decoding through `getParameters`'s ordered-field table reconstructs the
original logical values. -/
theorem tokenCapGC_roundtrip (t : String) (v : Int)
    (ht : t ≠ "") (hv : 0 ≤ v) :
    ∃ arr,
      TokenCapGCWrapper.setParameters ⟨CapInput.big v, some t⟩ = .ok arr ∧
        TokenCapGCWrapper.getParameters arr =
          ⟨some (ParamValue.num (some v)), some (ParamValue.addr t)⟩ := by
  refine ⟨[ParamValue.addr t, ParamValue.num (some v)], ?_, rfl⟩
  simp [TokenCapGCWrapper.setParameters, truthyToken, ht, newBigNumber, bnLt,
    not_lt.mpr hv]

/-- Witness for C2 at token "0x2", cap 7. -/
theorem tokenCapGC_roundtrip_witness :
    ("0x2" ≠ "") ∧ (0 : Int) ≤ 7 ∧
      ∃ arr,
        TokenCapGCWrapper.setParameters ⟨CapInput.big 7, some "0x2"⟩ = .ok arr ∧
          TokenCapGCWrapper.getParameters arr =
            ⟨some (ParamValue.num (some 7)), some (ParamValue.addr "0x2")⟩ :=
  ⟨by decide, by decide, tokenCapGC_roundtrip "0x2" 7 (by decide) (by decide)⟩

/-- C3: with a truthy token, any cap normalizing to a strictly negative
big number makes `setParameters` throw "cap must be greater than or equal
to zero" — an `.error`, so no transaction is submitted. -/
theorem tokenCapGC_negative_cap_rejected (t : String) (c : CapInput) (v : Int)
    (ht : t ≠ "") (hv : newBigNumber c = some v) (hneg : v < 0) :
    TokenCapGCWrapper.setParameters ⟨c, some t⟩ =
      .error "cap must be greater than or equal to zero" := by
  simp [TokenCapGCWrapper.setParameters, truthyToken, ht, hv, bnLt, hneg]

/-- Witness for C3 at token "0x1", cap "-1". -/
theorem tokenCapGC_negative_cap_rejected_witness :
    ("0x1" ≠ "") ∧ newBigNumber (CapInput.str "-1") = some (-1) ∧ ((-1 : Int) < 0) ∧
      TokenCapGCWrapper.setParameters ⟨CapInput.str "-1", some "0x1"⟩ =
        .error "cap must be greater than or equal to zero" :=
  ⟨by decide, by decide, by decide,
    tokenCapGC_negative_cap_rejected "0x1" (CapInput.str "-1") (-1)
      (by decide) (by decide) (by decide)⟩

/-- C4: a parameter set whose `token` field is absent makes `setParameters`
throw "token must be set" for every cap input — an `.error`, so no
transaction is ever submitted. -/
theorem tokenCapGC_missing_token_rejected (c : CapInput) :
    TokenCapGCWrapper.setParameters ⟨c, none⟩ = .error "token must be set" := by
  simp [TokenCapGCWrapper.setParameters, truthyToken]

/-- C9: with a truthy token, a zero cap — given as the string "0" or as
big-integer zero — passes validation and proceeds to encode: the domain
check rejects only strictly negative caps. -/
theorem tokenCapGC_zero_cap_accepted (t : String) (ht : t ≠ "") :
    TokenCapGCWrapper.setParameters ⟨CapInput.str "0", some t⟩ =
        .ok [ParamValue.addr t, ParamValue.num (some 0)] ∧
      TokenCapGCWrapper.setParameters ⟨CapInput.big 0, some t⟩ =
        .ok [ParamValue.addr t, ParamValue.num (some 0)] := by
  constructor <;>
    simp [TokenCapGCWrapper.setParameters, truthyToken, ht, newBigNumber,
      bnLt, parseDecInt, parseDigits, parseDigitsAux, digitVal]

/-- Witness for C9 at token "0xToken". -/
theorem tokenCapGC_zero_cap_accepted_witness :
    ("0xToken" ≠ "") ∧
      TokenCapGCWrapper.setParameters ⟨CapInput.str "0", some "0xToken"⟩ =
          .ok [ParamValue.addr "0xToken", ParamValue.num (some 0)] ∧
        TokenCapGCWrapper.setParameters ⟨CapInput.big 0, some "0xToken"⟩ =
          .ok [ParamValue.addr "0xToken", ParamValue.num (some 0)] :=
  ⟨by decide, tokenCapGC_zero_cap_accepted "0xToken" (by decide)⟩

/-- C10: the required-field check on `token` tests JS falsiness, so an
empty-string token fails exactly like an absent one: both produce the
"token must be set" throw before encoding, for every cap input. -/
theorem tokenCapGC_empty_token_like_missing (c : CapInput) :
    TokenCapGCWrapper.setParameters ⟨c, some ""⟩ = .error "token must be set" ∧
      TokenCapGCWrapper.setParameters ⟨c, none⟩ = .error "token must be set" := by
  constructor <;> simp [TokenCapGCWrapper.setParameters, truthyToken]

/-- C5: with `index` omitted and at least two logs matching the event
name, `getValueFromTx` / `getValueFromLogs` selects the last matching
entry by log position and returns the named argument's value from it. -/
theorem getValueFromLogs_selects_last_matching
    (tx : TransactionReceiptTruffle) (arg eventName : String)
    (e : TransactionLogTruffle) (v : String)
    (h2 : 2 ≤ (tx.logs.filter (fun l => l.event == eventName)).length)
    (hlast : (tx.logs.filter (fun l => l.event == eventName)).getLast? = some e)
    (hv : e.args.lookup arg = some v) :
    ArcTransactionResult.getValueFromTx tx arg eventName none = .ok (some v) ∧
      getValueFromLogs tx.logs arg eventName none = .ok (some v) := by
  have h : getValueFromLogs tx.logs arg eventName none = .ok (some v) := by
    simp [getValueFromLogs, hlast, hv]
  exact ⟨h, h⟩

/-- Witness for C5 on a receipt with two "Stake" logs: the later one
(amount 25) is selected. -/
theorem getValueFromLogs_selects_last_matching_witness :
    2 ≤ (twoStakeReceipt.logs.filter (fun l => l.event == "Stake")).length ∧
      (twoStakeReceipt.logs.filter (fun l => l.event == "Stake")).getLast? =
        some ⟨"Stake", [("_amount", "25"), ("_staker", "0xS2")]⟩ ∧
      ArcTransactionResult.getValueFromTx twoStakeReceipt "_amount" "Stake" none =
        .ok (some "25") :=
  ⟨by decide, by decide,
    (getValueFromLogs_selects_last_matching twoStakeReceipt "_amount" "Stake"
      ⟨"Stake", [("_amount", "25"), ("_staker", "0xS2")]⟩ "25"
      (by decide) (by decide) (by decide)).1⟩

/-- C6: when no log matches the requested event name, `getValueFromLogs`
fails with an EventNotFoundError naming the event, rather than returning
a null or undefined value. -/
theorem getValueFromLogs_no_match_error
    (logs : List TransactionLogTruffle) (arg eventName : String)
    (h : logs.filter (fun l => l.event == eventName) = []) :
    getValueFromLogs logs arg eventName none =
      .error ("EventNotFoundError: " ++ eventName) := by
  simp [getValueFromLogs, h]

/-- Witness for C6 on a receipt whose only log is a "Vote" event. -/
theorem getValueFromLogs_no_match_error_witness :
    noStakeReceipt.logs.filter (fun l => l.event == "Stake") = [] ∧
      getValueFromLogs noStakeReceipt.logs "_amount" "Stake" none =
        .error ("EventNotFoundError: " ++ "Stake") :=
  ⟨by decide,
    getValueFromLogs_no_match_error noStakeReceipt.logs "_amount" "Stake" (by decide)⟩

/-- C7: the proposal-result invariant. Any successfully constructed
`ArcTransactionProposalResult` carries a non-empty proposalId, and when
the documented new-proposal event is absent from the transaction the
construction fails with an error rather than returning a null or empty
proposalId. -/
theorem proposalResult_id_nonempty_iff_event :
    (∀ (tx : TransactionReceiptTruffle) (n : String)
        (r : ArcTransactionProposalResult),
        mkArcTransactionProposalResult tx n = .ok r → r.proposalId ≠ "") ∧
      (∀ (tx : TransactionReceiptTruffle) (n : String),
        tx.logs.filter (fun l => l.event == n) = [] →
          ∃ e, mkArcTransactionProposalResult tx n = .error e) := by
  constructor
  · intro tx n r h
    unfold mkArcTransactionProposalResult at h
    split at h
    · exact absurd h (by simp)
    · exact absurd h (by simp)
    · rename_i v heq
      split at h
      · exact absurd h (by simp)
      · rename_i hne
        cases h
        simpa using hne
  · intro tx n h
    refine ⟨"EventNotFoundError: " ++ n, ?_⟩
    unfold mkArcTransactionProposalResult
    simp [getValueFromLogs, h]

/-- Witness for C7: constructed from a receipt with one "NewProposal"
log the proposalId is "0xAB12" (non-empty); on an empty receipt the
construction errors. -/
theorem proposalResult_id_nonempty_iff_event_witness :
    (⟨newProposalReceipt, "0xAB12"⟩ : ArcTransactionProposalResult).proposalId ≠ "" ∧
      ∃ e, mkArcTransactionProposalResult emptyReceipt "NewProposal" = .error e :=
  ⟨proposalResult_id_nonempty_iff_event.1 newProposalReceipt "NewProposal"
      ⟨newProposalReceipt, "0xAB12"⟩ rfl,
    proposalResult_id_nonempty_iff_event.2 emptyReceipt "NewProposal" rfl⟩

/-- C8: after `forgeOrg` by caller `c` and a first successful `setSchemes`
by `c`, the organization is in phase SchemesSet; a second `setSchemes`
fails with AlreadyConfiguredError and the state stays SchemesSet (errors
return no new state); `setSchemes` before forging fails with NotForged;
and a caller other than the forger fails with UnauthorizedError. -/
theorem daoCreator_setSchemes_at_most_once (c : String) (st1 st2 : OrgState)
    (hforge : DaoCreator.forgeOrg ⟨OrgPhase.unforged, none⟩ c = .ok st1)
    (hset : DaoCreator.setSchemes st1 c = .ok st2) :
    st2.phase = OrgPhase.schemesSet ∧
      DaoCreator.setSchemes st2 c = .error OrchError.alreadyConfigured ∧
      (∀ c', DaoCreator.setSchemes ⟨OrgPhase.unforged, none⟩ c' =
        .error OrchError.notForged) ∧
      (∀ c', c' ≠ c → DaoCreator.setSchemes st1 c' =
        .error OrchError.unauthorized) := by
  have h1 : st1 = ⟨OrgPhase.forged, some c⟩ := by
    simp only [DaoCreator.forgeOrg, Except.ok.injEq] at hforge
    exact hforge.symm
  subst h1
  have h2 : st2 = ⟨OrgPhase.schemesSet, some c⟩ := by
    simp only [DaoCreator.setSchemes, beq_self_eq_true, if_true, Except.ok.injEq] at hset
    exact hset.symm
  subst h2
  refine ⟨rfl, rfl, fun c' => rfl, fun c' hne => ?_⟩
  simp [DaoCreator.setSchemes, Ne.symm hne]

/-- Witness for C8 with forger "0xA" and stranger "0xB". -/
theorem daoCreator_setSchemes_at_most_once_witness :
    DaoCreator.setSchemes ⟨OrgPhase.schemesSet, some "0xA"⟩ "0xA" =
        .error OrchError.alreadyConfigured ∧
      DaoCreator.setSchemes ⟨OrgPhase.unforged, none⟩ "0xB" =
        .error OrchError.notForged ∧
      DaoCreator.setSchemes ⟨OrgPhase.forged, some "0xA"⟩ "0xB" =
        .error OrchError.unauthorized :=
  ⟨(daoCreator_setSchemes_at_most_once "0xA" ⟨OrgPhase.forged, some "0xA"⟩
      ⟨OrgPhase.schemesSet, some "0xA"⟩ rfl rfl).2.1,
    (daoCreator_setSchemes_at_most_once "0xA" ⟨OrgPhase.forged, some "0xA"⟩
      ⟨OrgPhase.schemesSet, some "0xA"⟩ rfl rfl).2.2.1 "0xB",
    (daoCreator_setSchemes_at_most_once "0xA" ⟨OrgPhase.forged, some "0xA"⟩
      ⟨OrgPhase.schemesSet, some "0xA"⟩ rfl rfl).2.2.2 "0xB" (by decide)⟩
